import Mathlib

/-!
Verification development for the rx-timer repository.

The embedding below translates the timer core of the repository into Lean:

* `RxTimerEvent` mirrors the event enum of src/index.ts.
* `RxTimer` mirrors the controller object of src/index.ts (configuration
  fields `duration`, `continueMode` (source name: the option `continue`),
  `beginTime`; runtime fields `remaining`, `startTime`; the active state
  object `state`) together with an explicit model of the two collaborators
  the source delegates to: the rxjs one-shot scheduler (the `pending` task
  list plus the fresh-id counter `nextId`) and the event channel (the
  `events` list, which records every `emitEvent` call in emission order).
* Each state-object method of src/timer-state/*.ts becomes one function
  (`stableStart`, `countingPause`, ...); the public methods of `RxTimer`
  dispatch on the active state exactly as the source dispatches through
  `this.state`.
* A scheduled one-shot callback (`interval(delay).pipe(take(1)).subscribe`)
  becomes a `STask` carrying a fresh id, the kind of closure it runs, and its
  due time.  `unsubscribe()` removes the task from `pending`; the scheduler
  delivering a callback is the explicit step `Step.fire`, which runs the
  closure body translated from the source.  Note that the source's
  `startTimerImmediately` overwrites `this.countingSubscription` without
  unsubscribing the previous subscription; the embedding keeps such orphaned
  tasks in `pending`, exactly as rxjs keeps the old subscription alive.
* A system run is a fold of `Step`s (public operations at a wall-clock time,
  and scheduler deliveries).  `validTrace` states the scheduling discipline:
  times are non-decreasing and a callback is delivered only while pending
  and no earlier than its due time.
-/

/-- Timer events, from the enum RxTimerEvent of src/index.ts. -/
inductive RxTimerEvent where
  | START
  | STOP
  | PAUSE
  | RESUME
  | RESET
  | TICK
  deriving DecidableEq, Repr

/-- The kind of closure a scheduled one-shot callback runs: the countdown
callback of RxTimerCountingState.startTimerImmediately, or the deferred-start
callback of RxTimerCountingToBeginTimeState.startTimerFromBeginning. -/
inductive TaskKind where
  | countingTick
  | beginTimeFire
  deriving DecidableEq, Repr

/-- One pending one-shot scheduled callback: its subscription id, the closure
it runs, and the wall-clock time it was scheduled for. -/
structure STask where
  id : Nat
  kind : TaskKind
  due : Nat
  deriving DecidableEq, Repr

/-- The active state object, from the three state classes of
src/timer-state/.  The counting and counting-to-begin-time states carry the
subscription field of the state object (`countingSubscription` resp.
`beginTimeSubscription`): `none` models the null subscription, `some id`
references a scheduled task by id. -/
inductive TState where
  | stable
  | counting (sub : Option Nat)
  | ctbt (sub : Option Nat)
  deriving DecidableEq, Repr

/-- The RxTimer controller of src/index.ts, together with the scheduler and
event-channel collaborators made explicit (see the module doc comment). -/
structure RxTimer where
  duration : Nat
  continueMode : Bool
  beginTime : Option Nat
  remaining : Nat
  startTime : Int
  state : TState
  pending : List STask
  nextId : Nat
  events : List RxTimerEvent
  deriving DecidableEq, Repr

/-- The constructor of RxTimer (src/index.ts): remaining 0, startTime -1,
initial state Stable, option defaults filled in by the caller. -/
def newRxTimer (duration : Nat) (continueMode : Bool) (beginTime : Option Nat) : RxTimer :=
  { duration := duration
    continueMode := continueMode
    beginTime := beginTime
    remaining := 0
    startTime := -1
    state := TState.stable
    pending := []
    nextId := 0
    events := [] }

/-- RxTimer.initTimer (src/index.ts lines 277-280): record the current time
and reload the remaining duration. -/
def initTimer (t : Nat) (m : RxTimer) : RxTimer :=
  { m with startTime := (t : Int), remaining := m.duration }

/-- RxTimer.resetTimer (src/index.ts lines 285-288): clear remaining and the
start timestamp. -/
def resetTimer (m : RxTimer) : RxTimer :=
  { m with remaining := 0, startTime := -1 }

/-- RxTimer.emitEvent (src/index.ts): push one event into the channel. -/
def emitEvent (e : RxTimerEvent) (m : RxTimer) : RxTimer :=
  { m with events := m.events ++ [e] }

/-- Unsubscribing a one-shot subscription: the pending task with that id is
removed; removing an already-fired or cancelled id is a no-op. -/
def cancelTask (id : Nat) (m : RxTimer) : RxTimer :=
  { m with pending := m.pending.filter (fun task => task.id != id) }

/-- Subscribing to interval(delay).pipe(take(1)): a fresh task enters the
scheduler; the fresh id is the pre-call value of nextId. -/
def scheduleTask (kind : TaskKind) (due : Nat) (m : RxTimer) : RxTimer :=
  { m with pending := m.pending ++ [{ id := m.nextId, kind := kind, due := due }]
           nextId := m.nextId + 1 }

/-- JavaScript truthiness of the optional beginTime configuration: undefined
and 0 are falsy. -/
def truthyBeginTime : Option Nat → Bool
  | none => false
  | some bt => bt != 0

/-- RxTimerCountingState.start (src/timer-state/timer-counting.state.ts lines
23-34): when not resuming (remaining 0) run initTimer and emit START; then
always run startTimerImmediately, which subscribes a fresh one-shot callback
after `remaining` ms and overwrites `this.countingSubscription` with it
(without unsubscribing a previous subscription). -/
def countingStart (t : Nat) (m : RxTimer) : RxTimer :=
  let m1 := if 0 < m.remaining then m else emitEvent RxTimerEvent.START (initTimer t m)
  let m2 := scheduleTask TaskKind.countingTick (t + m1.remaining) m1
  { m2 with state := TState.counting (some m1.nextId) }

/-- RxTimerCountingState.stop (src/timer-state/timer-counting.state.ts lines
40-47): guarded by isCounting; unsubscribe, resetTimer, go Stable, emit STOP. -/
def countingStop (m : RxTimer) : RxTimer :=
  match m.state with
  | TState.counting (some id) =>
      emitEvent RxTimerEvent.STOP { resetTimer (cancelTask id m) with state := TState.stable }
  | _ => m

/-- RxTimerCountingState.pause (src/timer-state/timer-counting.state.ts lines
53-59): guarded by isCounting; unsubscribe, go Stable, emit PAUSE.  The
remaining field is not recomputed. -/
def countingPause (m : RxTimer) : RxTimer :=
  match m.state with
  | TState.counting (some id) =>
      emitEvent RxTimerEvent.PAUSE { cancelTask id m with state := TState.stable }
  | _ => m

/-- RxTimerCountingState.reset (src/timer-state/timer-counting.state.ts lines
73-80): like stop but emits RESET. -/
def countingReset (m : RxTimer) : RxTimer :=
  match m.state with
  | TState.counting (some id) =>
      emitEvent RxTimerEvent.RESET { resetTimer (cancelTask id m) with state := TState.stable }
  | _ => m

/-- RxTimerCountingToBeginTimeState.start (src/timer-state/
timer-counting-to-begin-time.state.ts lines 24-31 and 100-114): return if a
begin-time subscription is already pending or beginTime is falsy; otherwise
if beginTime already passed switch to a fresh Counting state and re-invoke
start; else subscribe the deferred-start callback after beginTime - now ms. -/
def ctbtStart (t : Nat) (m : RxTimer) : RxTimer :=
  match m.state with
  | TState.ctbt (some _) => m
  | TState.ctbt none =>
      match m.beginTime with
      | none => m
      | some bt =>
          if bt = 0 then m
          else if (bt : Int) - (t : Int) < 0 then
            countingStart t { m with state := TState.counting none }
          else
            { scheduleTask TaskKind.beginTimeFire (t + (bt - t)) m with
                state := TState.ctbt (some m.nextId) }
  | _ => m

/-- RxTimerCountingToBeginTimeState.stopCountingToBeginTime (src/timer-state/
timer-counting-to-begin-time.state.ts lines 87-92): if a begin-time
subscription is pending, unsubscribe it and go Stable; no event. -/
def stopCountingToBeginTime (m : RxTimer) : RxTimer :=
  match m.state with
  | TState.ctbt (some id) => { cancelTask id m with state := TState.stable }
  | _ => m

/-- RxTimerStableState.start (src/timer-state/timer-stable.state.ts lines
19-27): dispatch on the truthiness of the beginTime option, switch to the
corresponding fresh state object and re-invoke timer.start(), which the new
state handles. -/
def stableStart (t : Nat) (m : RxTimer) : RxTimer :=
  if truthyBeginTime m.beginTime then ctbtStart t { m with state := TState.ctbt none }
  else countingStart t { m with state := TState.counting none }

/-- RxTimerStableState.stop (src/timer-state/timer-stable.state.ts lines
33-39): only if paused (remaining positive); resetTimer and emit STOP. -/
def stableStop (m : RxTimer) : RxTimer :=
  if 0 < m.remaining then emitEvent RxTimerEvent.STOP (resetTimer m) else m

/-- RxTimerStableState.resume (src/timer-state/timer-stable.state.ts lines
52-59): only if paused; switch to a fresh Counting state, re-invoke
timer.start(), then emit RESUME. -/
def stableResume (t : Nat) (m : RxTimer) : RxTimer :=
  if 0 < m.remaining then
    emitEvent RxTimerEvent.RESUME (countingStart t { m with state := TState.counting none })
  else m

/-- RxTimerStableState.reset (src/timer-state/timer-stable.state.ts lines
65-71): only if paused; resetTimer and emit RESET. -/
def stableReset (m : RxTimer) : RxTimer :=
  if 0 < m.remaining then emitEvent RxTimerEvent.RESET (resetTimer m) else m

/-- RxTimer.start: delegate to the active state object. -/
def RxTimer.start (t : Nat) (m : RxTimer) : RxTimer :=
  match m.state with
  | TState.stable => stableStart t m
  | TState.counting _ => countingStart t m
  | TState.ctbt _ => ctbtStart t m

/-- RxTimer.pause: delegate to the active state object (the stable state
ignores pause; the counting-to-begin-time state cancels the deferred start). -/
def RxTimer.pause (m : RxTimer) : RxTimer :=
  match m.state with
  | TState.stable => m
  | TState.counting _ => countingPause m
  | TState.ctbt _ => stopCountingToBeginTime m

/-- RxTimer.resume: delegate to the active state object (only the stable
state reacts). -/
def RxTimer.resume (t : Nat) (m : RxTimer) : RxTimer :=
  match m.state with
  | TState.stable => stableResume t m
  | TState.counting _ => m
  | TState.ctbt _ => m

/-- RxTimer.stop: delegate to the active state object. -/
def RxTimer.stop (m : RxTimer) : RxTimer :=
  match m.state with
  | TState.stable => stableStop m
  | TState.counting _ => countingStop m
  | TState.ctbt _ => stopCountingToBeginTime m

/-- RxTimer.reset: delegate to the active state object. -/
def RxTimer.reset (m : RxTimer) : RxTimer :=
  match m.state with
  | TState.stable => stableReset m
  | TState.counting _ => countingReset m
  | TState.ctbt _ => stopCountingToBeginTime m

/-- The scheduler delivers the pending one-shot callback with the given id at
wall-clock time t (delivering an unknown or cancelled id does nothing, and a
delivered take(1) subscription completes, i.e. leaves `pending`).

The countingTick closure is the subscribe body of
RxTimerCountingState.startTimerImmediately (src/timer-state/
timer-counting.state.ts lines 86-100): in continue mode it runs initTimer,
emits TICK and re-subscribes on its owning state object (the owning object is
the active one exactly when the active state's subscription field holds the
delivered id; a re-subscription by an orphaned object still enters the
scheduler but is referenced by no active state); otherwise it runs
resetTimer, emits TICK and switches to a fresh Stable state.

The beginTimeFire closure is the subscribe body of
startTimerFromBeginning (src/timer-state/timer-counting-to-begin-time.state.ts
lines 107-112): switch to a fresh Counting state and re-invoke timer.start(). -/
def fireTask (t : Nat) (id : Nat) (m : RxTimer) : RxTimer :=
  match m.pending.find? (fun task => task.id == id) with
  | none => m
  | some task =>
      let m1 := cancelTask id m
      match task.kind with
      | TaskKind.beginTimeFire => countingStart t { m1 with state := TState.counting none }
      | TaskKind.countingTick =>
          if m1.continueMode then
            let m2 := emitEvent RxTimerEvent.TICK (initTimer t m1)
            let m3 := scheduleTask TaskKind.countingTick (t + m2.remaining) m2
            if m1.state = TState.counting (some id) then
              { m3 with state := TState.counting (some m2.nextId) }
            else m3
          else
            { emitEvent RxTimerEvent.TICK (resetTimer m1) with state := TState.stable }

/-- The public operations of the timer facade. -/
inductive TOp where
  | start
  | pause
  | resume
  | stop
  | reset
  deriving DecidableEq, Repr

/-- One step of a system run: a public call at wall-clock time t, or the
scheduler delivering the pending callback with the given id at time t. -/
inductive Step where
  | op (t : Nat) (o : TOp)
  | fire (t : Nat) (id : Nat)
  deriving DecidableEq, Repr

/-- The wall-clock time at which a step happens. -/
def stepTime : Step → Nat
  | Step.op t _ => t
  | Step.fire t _ => t

/-- Apply one public operation at time t. -/
def applyOp (t : Nat) (o : TOp) (m : RxTimer) : RxTimer :=
  match o with
  | TOp.start => RxTimer.start t m
  | TOp.pause => RxTimer.pause m
  | TOp.resume => RxTimer.resume t m
  | TOp.stop => RxTimer.stop m
  | TOp.reset => RxTimer.reset m

/-- Apply one step. -/
def applyStep (m : RxTimer) : Step → RxTimer
  | Step.op t o => applyOp t o m
  | Step.fire t id => fireTask t id m

/-- Run a list of steps from a configuration. -/
def run (m : RxTimer) (steps : List Step) : RxTimer :=
  steps.foldl applyStep m

/-- Scheduling discipline from a given last-seen time: wall-clock times are
non-decreasing along the trace, and the scheduler delivers only a pending
callback and never before its due time (it may be late). -/
def validFrom (lastT : Nat) (m : RxTimer) : List Step → Bool
  | [] => true
  | s :: rest =>
      (match s with
       | Step.op t _ => decide (lastT ≤ t)
       | Step.fire t id =>
           decide (lastT ≤ t) &&
             m.pending.any (fun task => task.id == id && decide (task.due ≤ t))) &&
      validFrom (stepTime s) (applyStep m s) rest

/-- A realizable trace from a configuration, starting the clock at 0. -/
def validTrace (m : RxTimer) (steps : List Step) : Bool :=
  validFrom 0 m steps

/-- Modelled from the spec: the Counting state's isCounting query.  The
repository snapshot declares the query methods of every state in
src/timer-state/timer-state.ts and implements them for the stable and
counting-to-begin-time states, but the Counting state's implementations are
missing from the snapshot; spec section 4.4 gives isCounting() -> true. -/
def countingStateIsCounting : Bool := true

/-- Modelled from the spec: the Counting state's isStopped query (spec
section 4.4: false); implementation missing from the snapshot, see
countingStateIsCounting. -/
def countingStateIsStopped : Bool := false

/-- Modelled from the spec: the Counting state's isPaused query (spec
section 4.4: false); implementation missing from the snapshot, see
countingStateIsCounting. -/
def countingStateIsPaused : Bool := false

/-- Modelled from the spec: the Counting state's getRemainingMilliseconds
query (spec section 4.4: remainingMs - (now() - startTimestamp), clamped at
0); implementation missing from the snapshot, see countingStateIsCounting. -/
def countingStateGetRemainingMilliseconds (t : Nat) (m : RxTimer) : Nat :=
  ((m.remaining : Int) - ((t : Int) - m.startTime)).toNat

/-- RxTimer.isCounting, dispatched to the active state: the stable state
answers false (src/timer-state/timer-counting.state.ts lines 171-174), the
counting-to-begin-time state answers false (timer-counting-to-begin-time
.state.ts lines 66-68), the counting state per the spec model. -/
def RxTimer.isCounting (m : RxTimer) : Bool :=
  match m.state with
  | TState.stable => false
  | TState.counting _ => countingStateIsCounting
  | TState.ctbt _ => false

/-- RxTimer.isStopped, dispatched to the active state: the stable state
answers remaining == 0 (src/timer-state/timer-counting.state.ts lines
176-180), the counting-to-begin-time state answers true (lines 70-72 of its
file), the counting state per the spec model. -/
def RxTimer.isStopped (m : RxTimer) : Bool :=
  match m.state with
  | TState.stable => decide (m.remaining = 0)
  | TState.counting _ => countingStateIsStopped
  | TState.ctbt _ => true

/-- RxTimer.isPaused, dispatched to the active state: the stable state
answers remaining > 0 (src/timer-state/timer-counting.state.ts lines
182-185), the counting-to-begin-time state answers false (lines 74-76 of its
file), the counting state per the spec model. -/
def RxTimer.isPaused (m : RxTimer) : Bool :=
  match m.state with
  | TState.stable => decide (0 < m.remaining)
  | TState.counting _ => countingStateIsPaused
  | TState.ctbt _ => false

/-- RxTimer.getRemainingMilliseconds, dispatched to the active state: the
stable state returns the stored remaining (src/timer-state/
timer-counting.state.ts lines 187-189), the counting-to-begin-time state
also returns the stored remaining (timer-counting-to-begin-time.state.ts
lines 78-80), the counting state per the spec model. -/
def RxTimer.getRemainingMilliseconds (t : Nat) (m : RxTimer) : Nat :=
  match m.state with
  | TState.stable => m.remaining
  | TState.counting _ => countingStateGetRemainingMilliseconds t m
  | TState.ctbt _ => m.remaining

/-- The remaining-time invariant: the stored remaining is always either 0 or
the configured duration. -/
def RemInv (m : RxTimer) : Prop :=
  m.remaining = 0 ∨ m.remaining = m.duration

/-- The scheduler-delivery steps of a continue-mode run: the n-th delivery
hands the countdown callback with subscription id n to the timer at the
chosen wall-clock time ts n (the source allocates consecutive subscription
ids because each delivered continue-mode callback re-subscribes exactly
once). -/
def contSteps (ts : Nat → Nat) : Nat → List Step
  | 0 => []
  | n + 1 => contSteps ts n ++ [Step.fire (ts n) n]

/-- The expected configuration of a continue-mode timer of duration D after
start() at t0 and n countdown-callback deliveries at times ts 0, ..,
ts (n-1): still Counting, remaining reloaded to the duration, exactly one
pending callback (id n), and the events START then n TICKs. -/
def contState (D t0 : Nat) (ts : Nat → Nat) (n : Nat) : RxTimer :=
  { duration := D
    continueMode := true
    beginTime := none
    remaining := D
    startTime := ((if n = 0 then t0 else ts (n - 1)) : Int)
    state := TState.counting (some n)
    pending := [{ id := n, kind := TaskKind.countingTick,
                  due := (if n = 0 then t0 else ts (n - 1)) + D }]
    nextId := n + 1
    events := RxTimerEvent.START :: List.replicate n RxTimerEvent.TICK }

/-! Helper lemmas about runs and the remaining-time invariant. -/

/-- Appending step lists composes runs. -/
theorem run_append (m : RxTimer) (l1 l2 : List Step) :
    run m (l1 ++ l2) = run (run m l1) l2 := by
  simp [run, List.foldl_append]

/-- Scheduler deliveries do nothing once no callback is pending. -/
theorem fires_noop (m : RxTimer) (steps : List Step) (hp : m.pending = [])
    (hf : ∀ s ∈ steps, ∃ t id, s = Step.fire t id) : run m steps = m := by
  induction steps with
  | nil => rfl
  | cons s rest ih =>
      obtain ⟨t, id, rfl⟩ := hf s (List.mem_cons_self _ _)
      have hstep : applyStep m (Step.fire t id) = m := by
        simp [applyStep, fireTask, hp]
      have hcons : run m (Step.fire t id :: rest) =
          run (applyStep m (Step.fire t id)) rest := rfl
      rw [hcons, hstep]
      exact ih (fun s hs => hf s (List.mem_cons_of_mem _ hs))

theorem countingStart_duration (t : Nat) (m : RxTimer) :
    (countingStart t m).duration = m.duration := by
  by_cases h : 0 < m.remaining <;>
    simp [countingStart, h, emitEvent, initTimer, scheduleTask]

theorem countingStart_remaining_keep (t : Nat) (m : RxTimer) (hpos : 0 < m.remaining) :
    (countingStart t m).remaining = m.remaining := by
  simp [countingStart, hpos, scheduleTask]

theorem countingStart_remInv (t : Nat) (m : RxTimer) (h : RemInv m) :
    RemInv (countingStart t m) := by
  by_cases hpos : 0 < m.remaining
  · unfold RemInv
    rw [countingStart_remaining_keep t m hpos, countingStart_duration]
    exact h
  · unfold RemInv
    right
    simp [countingStart, hpos, emitEvent, initTimer, scheduleTask]

theorem ctbtStart_duration (t : Nat) (m : RxTimer) :
    (ctbtStart t m).duration = m.duration := by
  cases hs : m.state with
  | stable => simp [ctbtStart, hs]
  | counting sub => simp [ctbtStart, hs]
  | ctbt sub =>
      cases sub with
      | some id => simp [ctbtStart, hs]
      | none =>
          cases hbt : m.beginTime with
          | none => simp [ctbtStart, hs, hbt]
          | some bt =>
              by_cases h0 : bt = 0
              · simp [ctbtStart, hs, hbt, h0]
              · by_cases hlt : (bt : Int) - (t : Int) < 0 <;>
                  simp [ctbtStart, hs, hbt, h0, hlt, countingStart_duration, scheduleTask]

theorem ctbtStart_remInv (t : Nat) (m : RxTimer) (h : RemInv m) :
    RemInv (ctbtStart t m) := by
  cases hs : m.state with
  | stable => simpa [ctbtStart, hs] using h
  | counting sub => simpa [ctbtStart, hs] using h
  | ctbt sub =>
      cases sub with
      | some id => simpa [ctbtStart, hs] using h
      | none =>
          cases hbt : m.beginTime with
          | none => simpa [ctbtStart, hs, hbt] using h
          | some bt =>
              by_cases h0 : bt = 0
              · simpa [ctbtStart, hs, hbt, h0] using h
              · by_cases hlt : (bt : Int) - (t : Int) < 0
                · have h1 : RemInv { m with state := TState.counting none } := h
                  simpa [ctbtStart, hs, hbt, h0, hlt] using
                    countingStart_remInv t { m with state := TState.counting none } h1
                · simpa [ctbtStart, hs, hbt, h0, hlt, scheduleTask, RemInv] using h

theorem stableStart_duration (t : Nat) (m : RxTimer) :
    (stableStart t m).duration = m.duration := by
  by_cases hb : truthyBeginTime m.beginTime = true <;>
    simp [stableStart, hb, ctbtStart_duration, countingStart_duration]

theorem stableStart_remInv (t : Nat) (m : RxTimer) (h : RemInv m) :
    RemInv (stableStart t m) := by
  by_cases hb : truthyBeginTime m.beginTime = true
  · have h1 : RemInv { m with state := TState.ctbt none } := h
    simpa [stableStart, hb] using ctbtStart_remInv t { m with state := TState.ctbt none } h1
  · have h1 : RemInv { m with state := TState.counting none } := h
    simpa [stableStart, hb] using
      countingStart_remInv t { m with state := TState.counting none } h1

theorem stableResume_duration (t : Nat) (m : RxTimer) :
    (stableResume t m).duration = m.duration := by
  by_cases h : 0 < m.remaining <;>
    simp [stableResume, h, emitEvent, countingStart_duration]

theorem stableResume_remInv (t : Nat) (m : RxTimer) (h : RemInv m) :
    RemInv (stableResume t m) := by
  by_cases hpos : 0 < m.remaining
  · have h1 : RemInv { m with state := TState.counting none } := h
    have h2 := countingStart_remInv t { m with state := TState.counting none } h1
    unfold RemInv at h2 ⊢
    simpa [stableResume, hpos, emitEvent] using h2
  · simpa [stableResume, hpos] using h

theorem stopCountingToBeginTime_duration (m : RxTimer) :
    (stopCountingToBeginTime m).duration = m.duration := by
  cases hs : m.state with
  | stable => simp [stopCountingToBeginTime, hs]
  | counting sub => simp [stopCountingToBeginTime, hs]
  | ctbt sub => cases sub <;> simp [stopCountingToBeginTime, hs, cancelTask]

theorem stopCountingToBeginTime_remaining (m : RxTimer) :
    (stopCountingToBeginTime m).remaining = m.remaining := by
  cases hs : m.state with
  | stable => simp [stopCountingToBeginTime, hs]
  | counting sub => simp [stopCountingToBeginTime, hs]
  | ctbt sub => cases sub <;> simp [stopCountingToBeginTime, hs, cancelTask]

theorem applyOp_duration (t : Nat) (o : TOp) (m : RxTimer) :
    (applyOp t o m).duration = m.duration := by
  cases o with
  | start =>
      cases hs : m.state <;>
        simp [applyOp, RxTimer.start, hs, stableStart_duration, countingStart_duration,
          ctbtStart_duration]
  | pause =>
      cases hs : m.state with
      | stable => simp [applyOp, RxTimer.pause, hs]
      | counting sub =>
          cases sub <;>
            simp [applyOp, RxTimer.pause, hs, countingPause, emitEvent, cancelTask]
      | ctbt sub =>
          simp [applyOp, RxTimer.pause, hs, stopCountingToBeginTime_duration]
  | resume =>
      cases hs : m.state <;>
        simp [applyOp, RxTimer.resume, hs, stableResume_duration]
  | stop =>
      cases hs : m.state with
      | stable =>
          by_cases h : 0 < m.remaining <;>
            simp [applyOp, RxTimer.stop, hs, stableStop, h, emitEvent, resetTimer]
      | counting sub =>
          cases sub <;>
            simp [applyOp, RxTimer.stop, hs, countingStop, emitEvent, resetTimer, cancelTask]
      | ctbt sub =>
          simp [applyOp, RxTimer.stop, hs, stopCountingToBeginTime_duration]
  | reset =>
      cases hs : m.state with
      | stable =>
          by_cases h : 0 < m.remaining <;>
            simp [applyOp, RxTimer.reset, hs, stableReset, h, emitEvent, resetTimer]
      | counting sub =>
          cases sub <;>
            simp [applyOp, RxTimer.reset, hs, countingReset, emitEvent, resetTimer, cancelTask]
      | ctbt sub =>
          simp [applyOp, RxTimer.reset, hs, stopCountingToBeginTime_duration]

theorem applyOp_remInv (t : Nat) (o : TOp) (m : RxTimer) (h : RemInv m) :
    RemInv (applyOp t o m) := by
  cases o with
  | start =>
      cases hs : m.state with
      | stable => simpa [applyOp, RxTimer.start, hs] using stableStart_remInv t m h
      | counting sub => simpa [applyOp, RxTimer.start, hs] using countingStart_remInv t m h
      | ctbt sub => simpa [applyOp, RxTimer.start, hs] using ctbtStart_remInv t m h
  | pause =>
      cases hs : m.state with
      | stable => simpa [applyOp, RxTimer.pause, hs] using h
      | counting sub =>
          cases sub <;>
            simpa [applyOp, RxTimer.pause, hs, countingPause, emitEvent, cancelTask,
              RemInv] using h
      | ctbt sub =>
          unfold RemInv
          rw [show (applyOp t TOp.pause m) = stopCountingToBeginTime m by
            simp [applyOp, RxTimer.pause, hs]]
          rw [stopCountingToBeginTime_remaining, stopCountingToBeginTime_duration]
          exact h
  | resume =>
      cases hs : m.state with
      | stable => simpa [applyOp, RxTimer.resume, hs] using stableResume_remInv t m h
      | counting sub => simpa [applyOp, RxTimer.resume, hs] using h
      | ctbt sub => simpa [applyOp, RxTimer.resume, hs] using h
  | stop =>
      cases hs : m.state with
      | stable =>
          by_cases hp : 0 < m.remaining
          · exact Or.inl (by simp [applyOp, RxTimer.stop, hs, stableStop, hp, emitEvent,
              resetTimer])
          · simpa [applyOp, RxTimer.stop, hs, stableStop, hp] using h
      | counting sub =>
          cases sub with
          | none => simpa [applyOp, RxTimer.stop, hs, countingStop] using h
          | some id =>
              exact Or.inl (by simp [applyOp, RxTimer.stop, hs, countingStop, emitEvent,
                resetTimer, cancelTask])
      | ctbt sub =>
          unfold RemInv
          rw [show (applyOp t TOp.stop m) = stopCountingToBeginTime m by
            simp [applyOp, RxTimer.stop, hs]]
          rw [stopCountingToBeginTime_remaining, stopCountingToBeginTime_duration]
          exact h
  | reset =>
      cases hs : m.state with
      | stable =>
          by_cases hp : 0 < m.remaining
          · exact Or.inl (by simp [applyOp, RxTimer.reset, hs, stableReset, hp, emitEvent,
              resetTimer])
          · simpa [applyOp, RxTimer.reset, hs, stableReset, hp] using h
      | counting sub =>
          cases sub with
          | none => simpa [applyOp, RxTimer.reset, hs, countingReset] using h
          | some id =>
              exact Or.inl (by simp [applyOp, RxTimer.reset, hs, countingReset, emitEvent,
                resetTimer, cancelTask])
      | ctbt sub =>
          unfold RemInv
          rw [show (applyOp t TOp.reset m) = stopCountingToBeginTime m by
            simp [applyOp, RxTimer.reset, hs]]
          rw [stopCountingToBeginTime_remaining, stopCountingToBeginTime_duration]
          exact h

theorem fireTask_duration (t : Nat) (id : Nat) (m : RxTimer) :
    (fireTask t id m).duration = m.duration := by
  cases hf : m.pending.find? (fun task => task.id == id) with
  | none => simp [fireTask, hf]
  | some task =>
      cases hk : task.kind with
      | beginTimeFire =>
          simp [fireTask, hf, hk, countingStart_duration, cancelTask]
      | countingTick =>
          by_cases hc : m.continueMode = true
          · by_cases ho : m.state = TState.counting (some id) <;>
              simp [fireTask, hf, hk, hc, ho, emitEvent, initTimer, scheduleTask, cancelTask]
          · simp [fireTask, hf, hk, hc, emitEvent, resetTimer, cancelTask]

theorem fireTask_remInv (t : Nat) (id : Nat) (m : RxTimer) (h : RemInv m) :
    RemInv (fireTask t id m) := by
  cases hf : m.pending.find? (fun task => task.id == id) with
  | none => simpa [fireTask, hf] using h
  | some task =>
      cases hk : task.kind with
      | beginTimeFire =>
          have h1 : RemInv { cancelTask id m with state := TState.counting none } := by
            simpa [cancelTask, RemInv] using h
          have h2 := countingStart_remInv t
            { cancelTask id m with state := TState.counting none } h1
          simpa [fireTask, hf, hk] using h2
      | countingTick =>
          by_cases hc : m.continueMode = true
          · by_cases ho : m.state = TState.counting (some id)
            · exact Or.inr (by simp [fireTask, hf, hk, hc, ho, emitEvent, initTimer,
                scheduleTask, cancelTask])
            · exact Or.inr (by simp [fireTask, hf, hk, hc, ho, emitEvent, initTimer,
                scheduleTask, cancelTask])
          · exact Or.inl (by simp [fireTask, hf, hk, hc, emitEvent, resetTimer, cancelTask])

theorem applyStep_duration (m : RxTimer) (s : Step) :
    (applyStep m s).duration = m.duration := by
  cases s with
  | op t o => simpa [applyStep] using applyOp_duration t o m
  | fire t id => simpa [applyStep] using fireTask_duration t id m

theorem applyStep_remInv (m : RxTimer) (s : Step) (h : RemInv m) :
    RemInv (applyStep m s) := by
  cases s with
  | op t o => simpa [applyStep] using applyOp_remInv t o m h
  | fire t id => simpa [applyStep] using fireTask_remInv t id m h

theorem run_duration (m : RxTimer) (steps : List Step) :
    (run m steps).duration = m.duration := by
  induction steps generalizing m with
  | nil => rfl
  | cons s rest ih =>
      have hcons : run m (s :: rest) = run (applyStep m s) rest := rfl
      rw [hcons, ih, applyStep_duration]

theorem run_remInv (m : RxTimer) (steps : List Step) (h : RemInv m) :
    RemInv (run m steps) := by
  induction steps generalizing m with
  | nil => exact h
  | cons s rest ih =>
      have hcons : run m (s :: rest) = run (applyStep m s) rest := rfl
      rw [hcons]
      exact ih (applyStep m s) (applyStep_remInv m s h)

/-- The pause operation never writes the remaining field, whatever the active
state is. -/
theorem pause_preserves_remaining (m : RxTimer) :
    (RxTimer.pause m).remaining = m.remaining := by
  cases hs : m.state with
  | stable => simp [RxTimer.pause, hs]
  | counting sub =>
      cases sub <;> simp [RxTimer.pause, hs, countingPause, emitEvent, cancelTask]
  | ctbt sub =>
      rw [show RxTimer.pause m = stopCountingToBeginTime m by simp [RxTimer.pause, hs]]
      exact stopCountingToBeginTime_remaining m

/-! Claim theorems. -/

/-- Claim C1: the spec states that pause() sets the stored remaining to
max(remaining - elapsed, 0), so pausing a 200 ms timer 50 ms in must leave
getRemainingMilliseconds() at most 150.  The code does not recompute the
remaining field on pause: on the realizable trace start at t=0, pause at
t=50, the stored remaining stays 200 and the query returns 200, violating
the repository's own test expectation (index.spec.ts, "pauses the timer and
reduces remaining time appropriately", which requires at most 150 here). -/
theorem pause_leaves_full_remaining_at_failing_input :
    validTrace (newRxTimer 200 false none)
      [Step.op 0 TOp.start, Step.op 50 TOp.pause] = true ∧
    (run (newRxTimer 200 false none)
      [Step.op 0 TOp.start, Step.op 50 TOp.pause]).events =
      [RxTimerEvent.START, RxTimerEvent.PAUSE] ∧
    (run (newRxTimer 200 false none)
      [Step.op 0 TOp.start, Step.op 50 TOp.pause]).remaining = 200 ∧
    RxTimer.getRemainingMilliseconds 50
      (run (newRxTimer 200 false none)
        [Step.op 0 TOp.start, Step.op 50 TOp.pause]) = 200 ∧
    ¬ RxTimer.getRemainingMilliseconds 50
      (run (newRxTimer 200 false none)
        [Step.op 0 TOp.start, Step.op 50 TOp.pause]) ≤ 150 := by
  decide

/-- Claim C2: the claim states a second start() during a running countdown
does not schedule a second pending callback and exactly one TICK fires.  On
the realizable trace start at t=0 (duration 50), start again at t=25, the
code emits no second START but re-subscribes without unsubscribing: two
callbacks are pending, and delivering both (at their due times 50 and 75)
emits two TICKs, contradicting the claim, the spec's idempotence bullet and
the method's own doc comment ("no action if already counting"). -/
theorem double_start_schedules_second_callback :
    validTrace (newRxTimer 50 false none)
      [Step.op 0 TOp.start, Step.op 25 TOp.start, Step.fire 50 0, Step.fire 75 1] = true ∧
    (run (newRxTimer 50 false none)
      [Step.op 0 TOp.start, Step.op 25 TOp.start]).pending.length = 2 ∧
    (run (newRxTimer 50 false none)
      [Step.op 0 TOp.start, Step.op 25 TOp.start]).events = [RxTimerEvent.START] ∧
    (run (newRxTimer 50 false none)
      [Step.op 0 TOp.start, Step.op 25 TOp.start, Step.fire 50 0, Step.fire 75 1]).events =
      [RxTimerEvent.START, RxTimerEvent.TICK, RxTimerEvent.TICK] := by
  decide

/-- Claim C6 counterexample: the claim states getRemainingMilliseconds() is 0
in the CountingToBeginTime state however the state was reached.  On the
realizable trace (duration 50, beginTime 100): start at t=0, deferred-start
callback delivered at t=100, pause at t=100 (stored remaining stays 50),
start again at t=100 - the begin-time delta is exactly 0, so the timer parks
in CountingToBeginTime with a pending deferred-start callback while the
stored remaining is 50, and getRemainingMilliseconds() returns 50, not 0. -/
theorem ctbt_remaining_nonzero_counterexample :
    validTrace (newRxTimer 50 false (some 100))
      [Step.op 0 TOp.start, Step.fire 100 0, Step.op 100 TOp.pause,
       Step.op 100 TOp.start] = true ∧
    (run (newRxTimer 50 false (some 100))
      [Step.op 0 TOp.start, Step.fire 100 0, Step.op 100 TOp.pause,
       Step.op 100 TOp.start]).state = TState.ctbt (some 2) ∧
    RxTimer.isCounting (run (newRxTimer 50 false (some 100))
      [Step.op 0 TOp.start, Step.fire 100 0, Step.op 100 TOp.pause,
       Step.op 100 TOp.start]) = false ∧
    RxTimer.isStopped (run (newRxTimer 50 false (some 100))
      [Step.op 0 TOp.start, Step.fire 100 0, Step.op 100 TOp.pause,
       Step.op 100 TOp.start]) = true ∧
    RxTimer.isPaused (run (newRxTimer 50 false (some 100))
      [Step.op 0 TOp.start, Step.fire 100 0, Step.op 100 TOp.pause,
       Step.op 100 TOp.start]) = false ∧
    RxTimer.getRemainingMilliseconds 100 (run (newRxTimer 50 false (some 100))
      [Step.op 0 TOp.start, Step.fire 100 0, Step.op 100 TOp.pause,
       Step.op 100 TOp.start]) = 50 := by
  decide

/-- Claim C10: with beginTime configured as 0 (the epoch, a past timestamp),
start() from the freshly constructed Stable idle timer behaves exactly as if
beginTime were not set: the resulting configuration agrees with the
no-beginTime run on every field except the stored option itself, and the
timer lands directly in the Counting state (the CountingToBeginTime state is
never entered), because the source tests options.beginTime for truthiness
and 0 is falsy. -/
theorem beginTime_zero_behaves_as_unset (D : Nat) (c : Bool) (t : Nat) :
    RxTimer.start t (newRxTimer D c (some 0)) =
      { RxTimer.start t (newRxTimer D c none) with beginTime := some 0 } ∧
    (RxTimer.start t (newRxTimer D c (some 0))).state = TState.counting (some 0) :=
  ⟨rfl, rfl⟩

/-- Claim C7: in the CountingToBeginTime state, pause(), stop() and reset()
are literally the same operation: they cancel the pending deferred-start
subscription, transition back to Stable, and emit no event (events, remaining
and startTime are untouched). -/
theorem ctbt_pause_stop_reset_identical (m : RxTimer) (id : Nat)
    (h : m.state = TState.ctbt (some id)) :
    RxTimer.pause m = RxTimer.stop m ∧
    RxTimer.stop m = RxTimer.reset m ∧
    (RxTimer.pause m).state = TState.stable ∧
    (RxTimer.pause m).pending = m.pending.filter (fun task => task.id != id) ∧
    (RxTimer.pause m).events = m.events ∧
    (RxTimer.pause m).remaining = m.remaining ∧
    (RxTimer.pause m).startTime = m.startTime := by
  refine ⟨?_, ?_, ?_, ?_, ?_, ?_, ?_⟩ <;>
    simp [RxTimer.pause, RxTimer.stop, RxTimer.reset, h, stopCountingToBeginTime, cancelTask]

/-- Witness for ctbt_pause_stop_reset_identical: the timer of duration 50
with beginTime 100, started at t=0, parks in CountingToBeginTime with the
deferred-start subscription 0, and the theorem applies. -/
theorem ctbt_pause_stop_reset_identical_witness :
    (run (newRxTimer 50 false (some 100)) [Step.op 0 TOp.start]).state =
        TState.ctbt (some 0) ∧
    RxTimer.pause (run (newRxTimer 50 false (some 100)) [Step.op 0 TOp.start]) =
      RxTimer.stop (run (newRxTimer 50 false (some 100)) [Step.op 0 TOp.start]) ∧
    (RxTimer.pause (run (newRxTimer 50 false (some 100)) [Step.op 0 TOp.start])).state =
      TState.stable :=
  ⟨by decide,
    (ctbt_pause_stop_reset_identical
      (run (newRxTimer 50 false (some 100)) [Step.op 0 TOp.start]) 0 (by decide)).1,
    (ctbt_pause_stop_reset_identical
      (run (newRxTimer 50 false (some 100)) [Step.op 0 TOp.start]) 0 (by decide)).2.2.1⟩

/-- Claim C8: in the Stable state, stop() resets the remaining time to 0 and
emits STOP exactly when the stored remaining is positive (paused with
leftover progress); with remaining 0 it is a silent no-op returning the
configuration unchanged. -/
theorem stable_stop_iff_paused (m : RxTimer) (h : m.state = TState.stable) :
    RxTimer.stop m =
      if 0 < m.remaining then
        { m with remaining := 0, startTime := -1,
                 events := m.events ++ [RxTimerEvent.STOP] }
      else m := by
  by_cases hp : 0 < m.remaining <;>
    simp [RxTimer.stop, h, stableStop, hp, emitEvent, resetTimer]

/-- Witness for stable_stop_iff_paused: the paused timer obtained by start
then pause (duration 50) is Stable with remaining 50, and stop() on it
resets and emits STOP. -/
theorem stable_stop_iff_paused_witness :
    (run (newRxTimer 50 false none) [Step.op 0 TOp.start, Step.op 20 TOp.pause]).state =
        TState.stable ∧
    RxTimer.stop (run (newRxTimer 50 false none)
        [Step.op 0 TOp.start, Step.op 20 TOp.pause]) =
      (if 0 < (run (newRxTimer 50 false none)
          [Step.op 0 TOp.start, Step.op 20 TOp.pause]).remaining then
        { run (newRxTimer 50 false none) [Step.op 0 TOp.start, Step.op 20 TOp.pause] with
            remaining := 0, startTime := -1,
            events := (run (newRxTimer 50 false none)
              [Step.op 0 TOp.start, Step.op 20 TOp.pause]).events ++ [RxTimerEvent.STOP] }
      else run (newRxTimer 50 false none) [Step.op 0 TOp.start, Step.op 20 TOp.pause]) :=
  ⟨by decide,
    stable_stop_iff_paused
      (run (newRxTimer 50 false none) [Step.op 0 TOp.start, Step.op 20 TOp.pause])
      (by decide)⟩

/-- Claim C3: with default options, stop() called after start() and before
the countdown callback is delivered cancels the pending callback for good:
whatever scheduler deliveries follow - and even with a resume() issued after
the stop() - no TICK is ever emitted; the whole run emits exactly START then
STOP. -/
theorem stop_before_tick_suppresses_tick_forever (D t0 t1 t2 : Nat)
    (rest : List Step) (hrest : ∀ s ∈ rest, ∃ t id, s = Step.fire t id) :
    (run (newRxTimer D false none)
      ([Step.op t0 TOp.start, Step.op t1 TOp.stop, Step.op t2 TOp.resume] ++ rest)).events =
      [RxTimerEvent.START, RxTimerEvent.STOP] := by
  have h1 : run (newRxTimer D false none)
      [Step.op t0 TOp.start, Step.op t1 TOp.stop, Step.op t2 TOp.resume] =
      { duration := D, continueMode := false, beginTime := none, remaining := 0,
        startTime := -1, state := TState.stable, pending := [], nextId := 1,
        events := [RxTimerEvent.START, RxTimerEvent.STOP] } := rfl
  rw [run_append, h1, fires_noop _ rest rfl hrest]

/-- Witness for stop_before_tick_suppresses_tick_forever at duration 50 with
one late scheduler delivery attempt after the stop. -/
theorem stop_before_tick_suppresses_tick_forever_witness :
    (∀ s ∈ [Step.fire 100 0], ∃ t id, s = Step.fire t id) ∧
    (run (newRxTimer 50 false none)
      ([Step.op 0 TOp.start, Step.op 20 TOp.stop, Step.op 30 TOp.resume] ++
        [Step.fire 100 0])).events =
      [RxTimerEvent.START, RxTimerEvent.STOP] :=
  ⟨fun s hs => ⟨100, 0, by simpa using hs⟩,
    stop_before_tick_suppresses_tick_forever 50 0 20 30 [Step.fire 100 0]
      (fun s hs => ⟨100, 0, by simpa using hs⟩)⟩

/-- Claim C4: with no beginTime and continueMode false, for every positive
duration D and all call times, the sequence start(), pause() mid-cycle,
resume(), then delivery of the (re-scheduled) countdown callback emits
exactly START, PAUSE, RESUME, TICK in that order with nothing interleaved. -/
theorem start_pause_resume_complete_event_sequence (D t0 t1 t2 t3 : Nat)
    (hD : 0 < D) :
    (run (newRxTimer D false none)
      [Step.op t0 TOp.start, Step.op t1 TOp.pause, Step.op t2 TOp.resume,
       Step.fire t3 1]).events =
      [RxTimerEvent.START, RxTimerEvent.PAUSE, RxTimerEvent.RESUME, RxTimerEvent.TICK] := by
  have h1 : run (newRxTimer D false none)
      [Step.op t0 TOp.start, Step.op t1 TOp.pause] =
      { duration := D, continueMode := false, beginTime := none, remaining := D,
        startTime := (t0 : Int), state := TState.stable, pending := [], nextId := 1,
        events := [RxTimerEvent.START, RxTimerEvent.PAUSE] } := rfl
  have hsplit : ([Step.op t0 TOp.start, Step.op t1 TOp.pause, Step.op t2 TOp.resume,
      Step.fire t3 1] : List Step) =
      [Step.op t0 TOp.start, Step.op t1 TOp.pause] ++
        [Step.op t2 TOp.resume, Step.fire t3 1] := rfl
  rw [hsplit, run_append, h1]
  simp [run, applyStep, applyOp, RxTimer.resume, stableResume, hD, countingStart,
    emitEvent, initTimer, scheduleTask, fireTask, cancelTask, resetTimer]

/-- Witness for start_pause_resume_complete_event_sequence at duration 50
and call times 0, 25, 30, 80. -/
theorem start_pause_resume_complete_event_sequence_witness :
    0 < 50 ∧
    (run (newRxTimer 50 false none)
      [Step.op 0 TOp.start, Step.op 25 TOp.pause, Step.op 30 TOp.resume,
       Step.fire 80 1]).events =
      [RxTimerEvent.START, RxTimerEvent.PAUSE, RxTimerEvent.RESUME, RxTimerEvent.TICK] :=
  ⟨by decide, start_pause_resume_complete_event_sequence 50 0 25 30 80 (by decide)⟩

/-- Claim C9: for every constructed timer and every sequence of public
operations and scheduler deliveries, the stored remaining field is always
either 0 or exactly the configured duration; pause() never changes the
stored remaining; and whenever the timer is paused (Stable with positive
remaining), getRemainingMilliseconds() reports the full duration. -/
theorem remaining_zero_or_duration_invariant (D : Nat) (c : Bool) (bt : Option Nat)
    (steps : List Step) (t : Nat) :
    ((run (newRxTimer D c bt) steps).remaining = 0 ∨
      (run (newRxTimer D c bt) steps).remaining = D) ∧
    (RxTimer.pause (run (newRxTimer D c bt) steps)).remaining =
      (run (newRxTimer D c bt) steps).remaining ∧
    ((run (newRxTimer D c bt) steps).state = TState.stable →
      0 < (run (newRxTimer D c bt) steps).remaining →
      RxTimer.getRemainingMilliseconds t (run (newRxTimer D c bt) steps) = D) := by
  have hdur : (run (newRxTimer D c bt) steps).duration = D := by
    rw [run_duration]; rfl
  have hinv : RemInv (run (newRxTimer D c bt) steps) :=
    run_remInv (newRxTimer D c bt) steps (Or.inl rfl)
  unfold RemInv at hinv
  rw [hdur] at hinv
  refine ⟨hinv, pause_preserves_remaining _, ?_⟩
  intro hs hpos
  have hrem : (run (newRxTimer D c bt) steps).remaining = D := by
    rcases hinv with h0 | hD
    · omega
    · exact hD
  rw [show RxTimer.getRemainingMilliseconds t (run (newRxTimer D c bt) steps) =
      (run (newRxTimer D c bt) steps).remaining by
    simp [RxTimer.getRemainingMilliseconds, hs]]
  exact hrem

/-- Witness for remaining_zero_or_duration_invariant at the paused trace
start then pause (duration 50): remaining is exactly the duration and the
paused query reports 50. -/
theorem remaining_zero_or_duration_invariant_witness :
    ((run (newRxTimer 50 false none)
        [Step.op 0 TOp.start, Step.op 20 TOp.pause]).remaining = 0 ∨
      (run (newRxTimer 50 false none)
        [Step.op 0 TOp.start, Step.op 20 TOp.pause]).remaining = 50) ∧
    (RxTimer.pause (run (newRxTimer 50 false none)
        [Step.op 0 TOp.start, Step.op 20 TOp.pause])).remaining =
      (run (newRxTimer 50 false none)
        [Step.op 0 TOp.start, Step.op 20 TOp.pause]).remaining ∧
    ((run (newRxTimer 50 false none)
        [Step.op 0 TOp.start, Step.op 20 TOp.pause]).state = TState.stable →
      0 < (run (newRxTimer 50 false none)
        [Step.op 0 TOp.start, Step.op 20 TOp.pause]).remaining →
      RxTimer.getRemainingMilliseconds 20 (run (newRxTimer 50 false none)
        [Step.op 0 TOp.start, Step.op 20 TOp.pause]) = 50) :=
  remaining_zero_or_duration_invariant 50 false none
    [Step.op 0 TOp.start, Step.op 20 TOp.pause] 20

/-- Claim C6, amended: in the CountingToBeginTime state, however reached,
isCounting() is false, isStopped() is true and isPaused() is false; but
getRemainingMilliseconds() returns the stored remaining field - which by the
remaining-time invariant is either 0 or the full duration - rather than
constantly 0 (it is the full duration when start() is called from a paused
Stable state in the same millisecond as beginTime, see the counterexample). -/
theorem ctbt_queries_amended (D : Nat) (c : Bool) (bt : Option Nat)
    (steps : List Step) (t : Nat) (sub : Option Nat)
    (h : (run (newRxTimer D c bt) steps).state = TState.ctbt sub) :
    RxTimer.isCounting (run (newRxTimer D c bt) steps) = false ∧
    RxTimer.isStopped (run (newRxTimer D c bt) steps) = true ∧
    RxTimer.isPaused (run (newRxTimer D c bt) steps) = false ∧
    RxTimer.getRemainingMilliseconds t (run (newRxTimer D c bt) steps) =
      (run (newRxTimer D c bt) steps).remaining ∧
    ((run (newRxTimer D c bt) steps).remaining = 0 ∨
      (run (newRxTimer D c bt) steps).remaining = D) := by
  have hinv : RemInv (run (newRxTimer D c bt) steps) :=
    run_remInv (newRxTimer D c bt) steps (Or.inl rfl)
  unfold RemInv at hinv
  rw [run_duration] at hinv
  rw [show (newRxTimer D c bt).duration = D from rfl] at hinv
  exact ⟨by simp [RxTimer.isCounting, h], by simp [RxTimer.isStopped, h],
    by simp [RxTimer.isPaused, h],
    by simp [RxTimer.getRemainingMilliseconds, h], hinv⟩

/-- Witness for ctbt_queries_amended: the timer of duration 50 with
beginTime 100 started at t=0 parks in CountingToBeginTime, and there the
Boolean queries answer false, true, false and the remaining query returns
the stored remaining. -/
theorem ctbt_queries_amended_witness :
    (run (newRxTimer 50 false (some 100)) [Step.op 0 TOp.start]).state =
        TState.ctbt (some 0) ∧
    RxTimer.isStopped (run (newRxTimer 50 false (some 100)) [Step.op 0 TOp.start]) = true ∧
    RxTimer.getRemainingMilliseconds 0
        (run (newRxTimer 50 false (some 100)) [Step.op 0 TOp.start]) =
      (run (newRxTimer 50 false (some 100)) [Step.op 0 TOp.start]).remaining :=
  ⟨by decide,
    (ctbt_queries_amended 50 false (some 100) [Step.op 0 TOp.start] 0 (some 0)
      (by decide)).2.1,
    (ctbt_queries_amended 50 false (some 100) [Step.op 0 TOp.start] 0 (some 0)
      (by decide)).2.2.2.1⟩

/-- A continue-mode run reaches exactly the expected configuration: proved by
induction on the number of delivered countdown callbacks. -/
theorem contRun_eq (D t0 : Nat) (ts : Nat → Nat) (n : Nat) :
    run (newRxTimer D true none) (Step.op t0 TOp.start :: contSteps ts n) =
      contState D t0 ts n := by
  induction n with
  | zero => rfl
  | succ n ih =>
      have hsplit : Step.op t0 TOp.start :: contSteps ts (n + 1) =
          (Step.op t0 TOp.start :: contSteps ts n) ++ [Step.fire (ts n) n] := by
        simp [contSteps]
      rw [hsplit, run_append, ih]
      show applyStep (contState D t0 ts n) (Step.fire (ts n) n) = contState D t0 ts (n + 1)
      simp only [applyStep, fireTask, contState, List.find?, cancelTask, emitEvent,
        initTimer, scheduleTask]
      simp [List.replicate_succ', Nat.succ_ne_zero]

/-- Claim C5: with continueMode true and duration D, after a single start()
and any number n of countdown-callback deliveries (at arbitrary delivery
times), the run has emitted exactly one START - at the very beginning - and
then one TICK per completed cycle, the timer is still in the Counting state
with remaining reloaded to the duration, and exactly one callback is
pending, so the periodic tick sequence continues until an explicit stop(),
pause() or reset(). -/
theorem continue_mode_periodic_ticks (D t0 : Nat) (ts : Nat → Nat) (n : Nat) :
    (run (newRxTimer D true none) (Step.op t0 TOp.start :: contSteps ts n)).events =
      RxTimerEvent.START :: List.replicate n RxTimerEvent.TICK ∧
    (run (newRxTimer D true none) (Step.op t0 TOp.start :: contSteps ts n)).state =
      TState.counting (some n) ∧
    (run (newRxTimer D true none) (Step.op t0 TOp.start :: contSteps ts n)).remaining = D ∧
    (run (newRxTimer D true none) (Step.op t0 TOp.start :: contSteps ts n)).pending.length
      = 1 := by
  rw [contRun_eq]
  simp [contState]
